import Mathlib

/-!
Verification of the routing-and-delegation engine of the xllm multi-agent
repository, as a shallow embedding in Lean 4.

The embedding models, from the Python sources:
  * `classify_query` (src/langfuse_tracing.py) — the executable keyword
    routing heuristic, together with a registry-parametric dispatch
    relation used to state determinism;
  * `convert_units` and `calculate` (src/agents/calculator_agent.py) and
    `advanced_calculate` (src/agents/advanced_calculator_agent.py);
  * `get_weather` (src/agents/weather_agent.py);
  * the A2A client pieces of src/test_agents_a2a.py: `get_agent_card`,
    the response-text extraction loop of `send_message`, and the request
    pattern of `send_message` itself;
  * the static capability registrations of src/agents/agent.py and
    src/agents/router_agent.py;
  * the Task state machine (the Task Tracker lives in the external
    ADK/A2A runtime, so that part is modelled from the spec).

Python strings are modelled as Lean strings; `str.lower`, `str.strip`,
`str.title` and the `in` substring test are embedded for the ASCII
fragment, which covers every keyword and unit name in the sources.
Python numbers (int/float) are modelled as exact rationals; Python
`round` is modelled as decimal round-half-to-even on rationals.
-/

/-- Table pairing each ASCII uppercase letter with its lowercase form;
the basis of the embedding of Python `str.lower`. -/
def upperLower : List (Char × Char) :=
  [('A', 'a'), ('B', 'b'), ('C', 'c'), ('D', 'd'), ('E', 'e'), ('F', 'f'),
   ('G', 'g'), ('H', 'h'), ('I', 'i'), ('J', 'j'), ('K', 'k'), ('L', 'l'),
   ('M', 'm'), ('N', 'n'), ('O', 'o'), ('P', 'p'), ('Q', 'q'), ('R', 'r'),
   ('S', 's'), ('T', 't'), ('U', 'u'), ('V', 'v'), ('W', 'w'), ('X', 'x'),
   ('Y', 'y'), ('Z', 'z')]

/-- Lowering of a single character: ASCII uppercase letters map to their
lowercase pair, every other character is unchanged (embeds Python
`str.lower` character-wise, restricted to ASCII). -/
def lowerChar (c : Char) : Char :=
  (upperLower.lookup c).getD c

/-- Characters Python `str.strip` removes by default (ASCII whitespace). -/
def isPySpace (c : Char) : Bool :=
  c == ' ' || c == '\t' || c == '\n' || c == '\r' ||
    c == Char.ofNat 11 || c == Char.ofNat 12

/-- Embedding of Python `str.lower` (ASCII fragment). -/
def pyLower (s : String) : String :=
  String.mk (s.data.map lowerChar)

/-- Both-ends whitespace removal on character lists. -/
def stripChars (l : List Char) : List Char :=
  ((l.dropWhile isPySpace).reverse.dropWhile isPySpace).reverse

/-- Embedding of Python `str.strip` with no argument. -/
def pyStrip (s : String) : String :=
  String.mk (stripChars s.data)

/-- Does `needle` occur at the start of `hay`? -/
def beginsWith : List Char → List Char → Bool
  | [], _ => true
  | _ :: _, [] => false
  | a :: t, b :: u => a == b && beginsWith t u

/-- Does `needle` occur anywhere inside `hay`? (Embeds the Python
substring test `needle in hay`; the empty needle matches.) -/
def subFind : List Char → List Char → Bool
  | needle, [] => beginsWith needle []
  | needle, b :: u => beginsWith needle (b :: u) || subFind needle u

/-- Embedding of the Python substring test `needle in hay` on strings. -/
def containsSub (hay needle : String) : Bool :=
  subFind needle.data hay.data

/-- Association-list lookup with decidable equality; embeds a Python
dict lookup on literal keys. -/
def assocLookup {α β : Type} [DecidableEq α] : List (α × β) → α → Option β
  | [], _ => none
  | (k, b) :: rest, key => if k = key then some b else assocLookup rest key

/-- Single apostrophe character as a string, used to rebuild the quoted
parts of the Python error messages. -/
def squote : String :=
  String.mk [Char.ofNat 39]

/-!
Keyword routing: `classify_query` from src/langfuse_tracing.py lines
90-111, the executable keyword dispatch heuristic of the repository.  Each
branch tests whether any keyword of a fixed list occurs inside the
lowercased query; the first matching branch wins.
-/

/-- Keywords of the weather branch of `classify_query`. -/
def weather_keywords : List String :=
  ["weather", "temperature", "forecast", "rain", "sunny", "climate"]

/-- Keywords of the calculation branch of `classify_query`. -/
def calculation_keywords : List String :=
  ["calculate", "compute", "math", "%", "percent", "sqrt", "sum", "add",
   "multiply", "divide"]

/-- Keywords of the conversion branch of `classify_query`. -/
def conversion_keywords : List String :=
  ["convert", "to miles", "to km", "to celsius", "to fahrenheit", "to lbs",
   "to kg"]

/-- Keywords of the greeting branch of `classify_query`. -/
def greeting_keywords : List String :=
  ["hello", "hi", "help", "what can you"]

/-- Does any keyword of the list occur inside the (already lowercased)
query?  Embeds `any(word in query_lower for word in [...])`. -/
def kwAny (kws : List String) (query_lower : String) : Bool :=
  kws.any (fun w => containsSub query_lower w)

/-- Embedding of `classify_query` (src/langfuse_tracing.py lines 90-111):
lowercase the query, then return the tag of the first keyword list with a
hit, falling through to "general". -/
def classify_query (query : String) : String :=
  let query_lower := pyLower query
  if kwAny weather_keywords query_lower then "weather"
  else if kwAny calculation_keywords query_lower then "calculation"
  else if kwAny conversion_keywords query_lower then "conversion"
  else if kwAny greeting_keywords query_lower then "greeting"
  else "general"

/-- A registry entry for dispatch: a capability tag with its declared
keyword list. -/
structure Capability where
  name : String
  keywords : List String

/-- A capability matches a query when any of its keywords occurs in the
lowercased query text. -/
def capMatches (cap : Capability) (query : String) : Bool :=
  kwAny cap.keywords (pyLower query)

/-- The registry realized by `classify_query`: its four keyword branches
in source order. -/
def classifyRegistry : List Capability :=
  [⟨"weather", weather_keywords⟩, ⟨"calculation", calculation_keywords⟩,
   ⟨"conversion", conversion_keywords⟩, ⟨"greeting", greeting_keywords⟩]

/-- First-match dispatch over an ordered registry, falling through to
"general"; `classify_query` is exactly this function on
`classifyRegistry`. -/
def selectCapability : List Capability → String → String
  | [], _ => "general"
  | cap :: rest, q => if capMatches cap q then cap.name else selectCapability rest q

/-- Declarative dispatch relation: which target a run of the dispatcher
may select for a query against a registry.  Mirrors the if/elif chain of
`classify_query`: a capability is selected iff it matches and no earlier
registry entry matches; with no match anywhere the dispatcher falls
through to the direct "general" outcome. -/
inductive DispatchesTo : List Capability → String → String → Prop where
  | hit (cap : Capability) (rest : List Capability) (q : String)
      (h : capMatches cap q = true) : DispatchesTo (cap :: rest) q cap.name
  | skip (cap : Capability) (rest : List Capability) (q c : String)
      (h : capMatches cap q = false) (tl : DispatchesTo rest q c) :
      DispatchesTo (cap :: rest) q c
  | fallthrough (q : String) : DispatchesTo [] q "general"

/-- Delegation target per routing tag, from the routing rules of
`router_instruction` (src/agents/router_agent.py lines 43-76): weather
queries go to the weather agent, math/conversion queries to the
calculator agent, everything else is answered directly (no delegation). -/
def delegationTarget (tag : String) : Option String :=
  if tag = "weather" then some "weather_agent"
  else if tag = "calculation" then some "calculator_agent"
  else if tag = "conversion" then some "calculator_agent"
  else none

/-!
Unit conversion: `convert_units` from src/agents/calculator_agent.py
lines 147-212.  Python floats are modelled as exact rationals and
`round(x, 6)` as decimal round-half-to-even on rationals.
-/

/-- Python `round` to an integer: round-half-to-even. -/
def pyRoundInt (x : ℚ) : ℤ :=
  let f := ⌊x⌋
  let r := x - f
  if r < 1 / 2 then f
  else if 1 / 2 < r then f + 1
  else if Even f then f else f + 1

/-- Python `round(x, p)`: round-half-to-even at `p` decimal digits. -/
def pyRoundTo (p : ℕ) (x : ℚ) : ℚ :=
  (pyRoundInt (x * 10 ^ p) : ℚ) / 10 ^ p

/-- The conversion table of `convert_units`, in source order: each
supported `(from_unit, to_unit)` pair maps to its conversion function. -/
def conversions : List ((String × String) × (ℚ → ℚ)) :=
  [(("km", "miles"), fun x => x * 0.621371),
   (("miles", "km"), fun x => x * 1.60934),
   (("m", "ft"), fun x => x * 3.28084),
   (("ft", "m"), fun x => x * 0.3048),
   (("cm", "inches"), fun x => x * 0.393701),
   (("inches", "cm"), fun x => x * 2.54),
   (("m", "cm"), fun x => x * 100),
   (("cm", "m"), fun x => x / 100),
   (("celsius", "fahrenheit"), fun x => x * 9 / 5 + 32),
   (("fahrenheit", "celsius"), fun x => (x - 32) * 5 / 9),
   (("celsius", "kelvin"), fun x => x + 273.15),
   (("kelvin", "celsius"), fun x => x - 273.15),
   (("fahrenheit", "kelvin"), fun x => (x - 32) * 5 / 9 + 273.15),
   (("kelvin", "fahrenheit"), fun x => (x - 273.15) * 9 / 5 + 32),
   (("kg", "lbs"), fun x => x * 2.20462),
   (("lbs", "kg"), fun x => x * 0.453592),
   (("g", "oz"), fun x => x * 0.035274),
   (("oz", "g"), fun x => x * 28.3495),
   (("sqm", "sqft"), fun x => x * 10.7639),
   (("sqft", "sqm"), fun x => x * 0.092903)]

/-- The `list(conversions.keys())` payload of the error dictionary. -/
def supportedConversions : List (String × String) :=
  conversions.map Prod.fst

/-- Unit-name normalization performed by `convert_units`:
`from_unit.lower().strip()`. -/
def pyNormUnit (u : String) : String :=
  pyStrip (pyLower u)

/-- Return value of `convert_units`: either the conversion dictionary or
the unsupported-conversion error dictionary. -/
inductive ConvResult where
  | ok (original_value : ℚ) (original_unit : String) (converted_value : ℚ)
      (converted_unit : String)
  | err (error : String) (supported : List (String × String))
deriving DecidableEq

/-- Error message of the unsupported branch of `convert_units`
(the Python f-string uses single quotes around the unit names). -/
def unsupportedMsg (fu tu : String) : String :=
  "Conversion from " ++ squote ++ fu ++ squote ++ " to " ++ squote ++ tu ++
    squote ++ " is not supported"

/-- Body of `convert_units` after unit normalization: look the pair up in
the table; on a hit return the conversion dictionary with the result
rounded to 6 digits, otherwise the error dictionary listing the
supported conversions. -/
def convBody (value : ℚ) (fu tu : String) : ConvResult :=
  match assocLookup conversions (fu, tu) with
  | some f => .ok value fu (pyRoundTo 6 (f value)) tu
  | none => .err (unsupportedMsg fu tu) supportedConversions

/-- Embedding of `convert_units` (src/agents/calculator_agent.py lines
147-212): normalize both unit names with `.lower().strip()`, then
dispatch on the conversion table. -/
def convert_units (value : ℚ) (from_unit to_unit : String) : ConvResult :=
  convBody value (pyStrip (pyLower from_unit)) (pyStrip (pyLower to_unit))

/-!
Expression evaluation: `calculate` from src/agents/calculator_agent.py
lines 75-144 and `advanced_calculate` from
src/agents/advanced_calculator_agent.py lines 64-88.  The Python `eval`
call on the cleaned expression string is modelled as an interpreter over
an expression tree with explicit exceptions; the except-clauses of both
functions are embedded directly.
-/

/-- Exceptions the modelled evaluator can raise, with the text Python
attaches to them. -/
inductive PyExc where
  | zeroDivision
  | valueError (msg : String)
  | syntaxErr
  | nameError (name : String)
deriving DecidableEq

/-- The `str(e)` rendering of each modelled exception. -/
def pyExcStr : PyExc → String
  | .zeroDivision => "division by zero"
  | .valueError m => m
  | .syntaxErr => "invalid syntax"
  | .nameError n => "name " ++ squote ++ n ++ squote ++ " is not defined"

/-- Arithmetic expression tree: the fragment of Python expressions the
claims exercise (literals, the four basic operators, `factorial`, and an
unresolved identifier, which `eval` rejects with a NameError). -/
inductive PyExpr where
  | num (q : ℚ)
  | add (a b : PyExpr)
  | sub (a b : PyExpr)
  | mul (a b : PyExpr)
  | div (a b : PyExpr)
  | factorial (a : PyExpr)
  | ident (s : String)

/-- Evaluator for the modelled expression fragment, raising the same
exceptions Python `eval` raises on it. -/
def evalPyExpr : PyExpr → Except PyExc ℚ
  | .num q => .ok q
  | .add a b => do
      let x ← evalPyExpr a
      let y ← evalPyExpr b
      .ok (x + y)
  | .sub a b => do
      let x ← evalPyExpr a
      let y ← evalPyExpr b
      .ok (x - y)
  | .mul a b => do
      let x ← evalPyExpr a
      let y ← evalPyExpr b
      .ok (x * y)
  | .div a b => do
      let x ← evalPyExpr a
      let y ← evalPyExpr b
      if y = 0 then .error .zeroDivision else .ok (x / y)
  | .factorial a => do
      let x ← evalPyExpr a
      if x < 0 then .error (.valueError "factorial() not defined for negative values")
      else if x.den = 1 then .ok (Nat.factorial x.num.toNat : ℕ)
      else .error (.valueError "factorial() only accepts integral values")
  | .ident s => .error (.nameError s)

/-- Outcome of parsing the raw expression text: `eval` raises a
SyntaxError on text that does not parse. -/
inductive ParsedExpr where
  | malformed
  | wellFormed (e : PyExpr)

/-- A tool invocation input: the raw expression string together with the
modelled outcome of parsing it. -/
structure RawExpr where
  text : String
  parsed : ParsedExpr

/-- Evaluation of a raw input: a SyntaxError for unparsable text,
otherwise whatever the expression evaluates (or raises) to. -/
def evalRaw (r : RawExpr) : Except PyExc ℚ :=
  match r.parsed with
  | .malformed => .error .syntaxErr
  | .wellFormed e => evalPyExpr e

/-- Notation cleanup of `calculate`: strip, then the single-character
replacements `^` to `**`, `×` to `*`, `÷` to `/` and `−` to `-`. -/
def cleanedExpr (s : String) : String :=
  String.mk
    (((((stripChars s.data).flatMap
        (fun d => if d = '^' then ['*', '*'] else [d])).map
        (fun d => if d = '×' then '*' else d)).map
        (fun d => if d = '÷' then '/' else d)).map
        (fun d => if d = '−' then '-' else d))

/-- The `calc_type` determination of `calculate`: substring checks on the
original and cleaned expression text. -/
def calcType (expression : String) : String :=
  if ["sqrt", "sin", "cos", "tan", "log"].any
      (fun f => containsSub (pyLower expression) f) then
    "trigonometric/logarithmic"
  else if containsSub (cleanedExpr expression) "**" || containsSub expression "^" then
    "exponential"
  else if containsSub (pyLower expression) "factorial" then "factorial"
  else "basic arithmetic"

/-- Result formatting of `calculate`: an integral float becomes an int,
a non-integral one is rounded to 10 digits. -/
def formatResult (q : ℚ) : ℚ :=
  if q.den = 1 then q else pyRoundTo 10 q

/-- Return dictionary of both calculator tools: a success dictionary
with expression, result and type, or an error dictionary with
expression, error message, and type "error". -/
inductive CalcReturn where
  | ok (expression : String) (result : ℚ) (ty : String)
  | err (expression : String) (error : String) (ty : String)
deriving DecidableEq

/-- Error message of each except-clause of `calculate`:
ZeroDivisionError, ValueError, SyntaxError, and the generic
catch-all. -/
def calcErrMsg : PyExc → String
  | .zeroDivision => "Division by zero is undefined"
  | .valueError m => "Mathematical error: " ++ m
  | .syntaxErr => "Invalid mathematical expression syntax"
  | .nameError n => "Calculation error: " ++ pyExcStr (.nameError n)

/-- Embedding of `calculate` (src/agents/calculator_agent.py lines
75-144): evaluate the cleaned expression inside try/except; every raised
exception is converted to the error dictionary of its except-clause. -/
def calculate (r : RawExpr) : CalcReturn :=
  match evalRaw r with
  | .ok v => .ok r.text (formatResult v) (calcType r.text)
  | .error .zeroDivision => .err r.text (calcErrMsg .zeroDivision) "error"
  | .error (.valueError m) => .err r.text (calcErrMsg (.valueError m)) "error"
  | .error .syntaxErr => .err r.text (calcErrMsg .syntaxErr) "error"
  | .error (.nameError n) => .err r.text (calcErrMsg (.nameError n)) "error"

/-- Embedding of `advanced_calculate`
(src/agents/advanced_calculator_agent.py lines 64-88): a single
catch-all except-clause converts any exception `e` to an error
dictionary with message "Calculation error: " followed by `str(e)`. -/
def advanced_calculate (r : RawExpr) : CalcReturn :=
  match evalRaw r with
  | .ok v => .ok r.text (formatResult v) "advanced mathematics"
  | .error e => .err r.text ("Calculation error: " ++ pyExcStr e) "error"

/-- Concrete failing input: the expression "1/0", which parses and then
raises ZeroDivisionError during evaluation. -/
def calcFailInput : RawExpr :=
  ⟨"1/0", .wellFormed (.div (.num 1) (.num 0))⟩

/-!
Weather lookup: `get_weather` from src/agents/weather_agent.py lines
14-105.  The network call to OpenWeatherMap and the draws of the
`random` module are external inputs, passed in explicitly; every branch
of the function body is embedded.
-/

/-- Fields of the OpenWeatherMap JSON payload that `get_weather`
reads. -/
structure WeatherResp where
  temp : ℚ
  feels_like : ℚ
  description : String
  humidity : ℚ
  wind_speed : ℚ

/-- Outcome of the real-API branch of `get_weather`: no key configured,
a placeholder key, a successful call, or any exception during the call
(which the code swallows, falling back to mock data). -/
inductive ApiOutcome where
  | noKey
  | placeholderKey
  | success (resp : WeatherResp)
  | failure

/-- The values drawn from the `random` module in the unknown-location
branch: `randint(5, 30)`, `choice` over five conditions,
`randint(30, 90)` and `randint(5, 25)`. -/
structure RandomDraw where
  tempC : ℤ
  condIdx : Fin 5
  humidity : ℤ
  wind : ℤ

/-- One row of the `mock_weather_data` dictionary. -/
structure MockEntry where
  temp_c : ℤ
  temp_f : ℤ
  desc : String
  humidity : ℤ
  wind : ℤ
deriving DecidableEq

/-- The `mock_weather_data` table of `get_weather`, in source order. -/
def mock_weather_data : List (String × MockEntry) :=
  [("london", ⟨12, 54, "Partly Cloudy", 78, 15⟩),
   ("new york", ⟨8, 46, "Sunny", 55, 12⟩),
   ("tokyo", ⟨18, 64, "Clear Sky", 62, 8⟩),
   ("paris", ⟨14, 57, "Overcast", 80, 10⟩),
   ("sydney", ⟨25, 77, "Sunny", 45, 18⟩),
   ("berlin", ⟨6, 43, "Light Rain", 85, 20⟩),
   ("madrid", ⟨22, 72, "Clear", 40, 14⟩),
   ("dubai", ⟨35, 95, "Hot and Sunny", 30, 12⟩)]

/-- Upper-casing of a single character, inverse table of `lowerChar`. -/
def upperChar (c : Char) : Char :=
  ((upperLower.map Prod.swap).lookup c).getD c

/-- Is the character an ASCII letter? -/
def isAsciiAlpha (c : Char) : Bool :=
  (upperLower.lookup c).isSome || ((upperLower.map Prod.swap).lookup c).isSome

/-- Character-list worker of `pyTitle`: uppercase a letter that follows
a non-letter, lowercase one that follows a letter. -/
def titleChars : List Char → Bool → List Char
  | [], _ => []
  | c :: t, prevAlpha =>
      (if prevAlpha then lowerChar c else upperChar c) :: titleChars t (isAsciiAlpha c)

/-- Embedding of Python `str.title` (ASCII fragment), used by
`get_weather` to echo the location. -/
def pyTitle (s : String) : String :=
  String.mk (titleChars s.data false)

/-- Python `int()` truncation toward zero on a rational. -/
def pyTrunc (x : ℚ) : ℤ :=
  if 0 ≤ x then ⌊x⌋ else -⌊-x⌋

/-- The `conditions` list of the unknown-location branch. -/
def mockConditions : List String :=
  ["Sunny", "Partly Cloudy", "Cloudy", "Light Rain", "Clear"]

/-- Mock-data branch of `get_weather`: look the normalized location up
in `mock_weather_data`; on a miss generate plausible data from the
random draws. -/
def mockWeatherBranch (location unit : String) (rnd : RandomDraw) :
    List (String × String) :=
  let location_key := pyStrip (pyLower location)
  match assocLookup mock_weather_data location_key with
  | some w =>
      let temp := if unit = "celsius" then w.temp_c else w.temp_f
      let unit_symbol := if unit = "celsius" then "C" else "F"
      [("location", pyTitle location),
       ("temperature", toString temp ++ "°" ++ unit_symbol),
       ("description", w.desc),
       ("humidity", toString w.humidity ++ "%"),
       ("wind_speed", toString w.wind ++ " km/h"),
       ("source", "Mock Data (set OPENWEATHERMAP_API_KEY for real data)")]
  | none =>
      let temp := if unit = "celsius" then rnd.tempC
        else pyTrunc ((rnd.tempC : ℚ) * 9 / 5 + 32)
      let unit_symbol := if unit = "celsius" then "C" else "F"
      [("location", pyTitle location),
       ("temperature", toString temp ++ "°" ++ unit_symbol),
       ("description", mockConditions.get rnd.condIdx),
       ("humidity", toString rnd.humidity ++ "%"),
       ("wind_speed", toString rnd.wind ++ " km/h"),
       ("source", "Generated Mock Data (set OPENWEATHERMAP_API_KEY for real data)")]

/-- Embedding of `get_weather` (src/agents/weather_agent.py lines
14-105) as a dictionary of string keys and values: a successful API call
returns the real-data dictionary; a missing key, a placeholder key, or
any API exception all take the mock-data branch. -/
def get_weather (location : String) (unit : String) (api : ApiOutcome)
    (rnd : RandomDraw) : List (String × String) :=
  match api with
  | .success d =>
      let unit_symbol := if unit = "celsius" then "C" else "F"
      [("location", location),
       ("temperature", toString d.temp ++ "°" ++ unit_symbol),
       ("description", pyTitle d.description),
       ("humidity", toString d.humidity ++ "%"),
       ("wind_speed", toString d.wind_speed ++ " " ++
         (if unit = "celsius" then "m/s" else "mph")),
       ("feels_like", toString d.feels_like ++ "°" ++ unit_symbol),
       ("source", "OpenWeatherMap API")]
  | .noKey => mockWeatherBranch location unit rnd
  | .placeholderKey => mockWeatherBranch location unit rnd
  | .failure => mockWeatherBranch location unit rnd

/-- The six keys the claim requires of every `get_weather` result. -/
def requiredWeatherKeys : List String :=
  ["location", "temperature", "description", "humidity", "wind_speed", "source"]

/-!
A2A client: src/test_agents_a2a.py.  The JSON-RPC response shape, the
response-text extraction loop of `send_message` (lines 79-84), the
request pattern of `send_message` (lines 43-74), and the discovery
helper `get_agent_card` (lines 27-37).
-/

/-- One part of an A2A artifact; the "text" field may be absent. -/
structure TextPart where
  text : Option String

/-- One artifact of an A2A task payload. -/
structure A2aArtifact where
  parts : List TextPart

/-- Status object of an A2A task payload. -/
structure TaskStatus where
  state : String

/-- The task-shaped `result` payload of a JSON-RPC response. -/
structure TaskPayload where
  status : Option TaskStatus
  artifacts : Option (List A2aArtifact)

/-- A JSON-RPC error object. -/
structure RpcError where
  code : ℤ
  message : String

/-- A JSON-RPC response: a `result` or an `error` member. -/
structure RpcResponse where
  result : Option TaskPayload
  error : Option RpcError

/-- Embedding of the response-text extraction loop of `send_message`
(src/test_agents_a2a.py lines 79-84): starting from the empty string,
append the "text" field of every part of every artifact of the result,
in order; a response without result or artifacts contributes nothing. -/
def extract_response_text (resp : RpcResponse) : String :=
  match resp.result with
  | some r =>
      match r.artifacts with
      | some arts =>
          arts.foldl
            (fun acc a =>
              a.parts.foldl
                (fun acc2 p => match p.text with
                  | some t => acc2 ++ t
                  | none => acc2)
                acc)
            ""
      | none => ""
  | none => ""

/-- Text parts of one artifact, in order (parts without a "text" field
are skipped). -/
def artifactTexts (a : A2aArtifact) : List String :=
  a.parts.filterMap (fun p => p.text)

/-- A failed outcome as it reaches the client: a JSON-RPC error response
carrying the remote error message, with no result payload. -/
def divZeroFailureResponse : RpcResponse :=
  ⟨none, some ⟨-32000, "division by zero"⟩⟩

/-- Behavior of the remote endpoint during one `send_message` call: it
answers with some HTTP status and body, or the 60-second client timeout
expires first. -/
inductive RemoteOutcome where
  | responds (status : Nat) (resp : RpcResponse)
  | timesOut

/-- Exceptions `httpx` raises inside `send_message`: a timeout, or
`raise_for_status` on a non-2xx status. -/
inductive ClientFailure where
  | httpTimeout
  | httpStatus (code : Nat)
deriving DecidableEq

/-- Embedding of `send_message` (src/test_agents_a2a.py lines 43-74):
one POST of a "message/send" JSON-RPC envelope, nothing else — the
second component records the JSON-RPC methods the call sends.  On
timeout the httpx exception surfaces to the caller; no cancel request is
issued for the outstanding remote task. -/
def send_message : RemoteOutcome → Except ClientFailure RpcResponse × List String
  | .responds status resp =>
      (if 200 ≤ status ∧ status < 300 then .ok resp
       else .error (.httpStatus status), ["message/send"])
  | .timesOut => (.error .httpTimeout, ["message/send"])

/-- The parsed agent-card document. -/
structure AgentCard where
  name : String
  description : String
  url : String
  version : String
  streaming : Bool
  skills : List (String × String)

/-- Outcome of the HTTP GET of discovery: a network failure, or a
response with a status code and (when the body parses as an agent card)
the parsed document. -/
inductive DiscoveryOutcome where
  | networkFailure
  | response (status : Nat) (card : Option AgentCard)

/-- Failures `get_agent_card` surfaces: connection errors, a non-2xx
status from `raise_for_status`, or an unparsable body. -/
inductive DiscoveryFailure where
  | unreachable
  | httpStatus (code : Nat)
  | malformed

/-- The fixed well-known discovery path. -/
def wellKnownPath : String :=
  "/.well-known/agent-card.json"

/-- URL construction of `get_agent_card`:
the well-known path appended to the endpoint base. -/
def agentCardUrl (base : String) : String :=
  base ++ wellKnownPath

/-- Embedding of `get_agent_card` (src/test_agents_a2a.py lines 27-37):
GET the well-known URL (`http` models the network), call
`raise_for_status` — which raises on every non-2xx status — and parse
the body. -/
def get_agent_card (http : String → DiscoveryOutcome) (base : String) :
    Except DiscoveryFailure AgentCard :=
  match http (agentCardUrl base) with
  | .networkFailure => .error .unreachable
  | .response status card =>
      if 200 ≤ status ∧ status < 300 then
        match card with
        | some c => .ok c
        | none => .error .malformed
      else .error (.httpStatus status)

/-- The discovery step of `run_demo` (src/test_agents_a2a.py lines
151-176): on any discovery failure the demo prints an error and returns
without retaining a card, so no capability is registered. -/
def run_demo_discovered (http : String → DiscoveryOutcome) (base : String) :
    Option AgentCard :=
  match get_agent_card http base with
  | .ok c => some c
  | .error _ => none

/-!
Static capability registrations.  src/agents/agent.py registers the four
tool functions and the two in-process sub-agents on `root_agent`;
src/agents/router_agent.py registers the two `RemoteA2aAgent` sub-agents
on `router_agent` and no tools.
-/

/-- Kind of a registered capability: an in-process tool function, an
in-process sub-agent, or a remote A2A sub-agent. -/
inductive CapabilityKind where
  | localTool
  | localAgent
  | remoteAgent
deriving DecidableEq

/-- Local capabilities run in-process. -/
def CapabilityKind.isLocal : CapabilityKind → Bool
  | .localTool => true
  | .localAgent => true
  | .remoteAgent => false

/-- Remote capabilities are delegated over A2A. -/
def CapabilityKind.isRemote : CapabilityKind → Bool
  | .localTool => false
  | .localAgent => false
  | .remoteAgent => true

/-- One registration: a capability name with its kind. -/
structure Registration where
  name : String
  kind : CapabilityKind
deriving DecidableEq

/-- The registrations of `root_agent` (src/agents/agent.py lines 14-59),
in source order: the four tools, then the two local sub-agents. -/
def root_agent_registrations : List Registration :=
  [⟨"get_weather", .localTool⟩, ⟨"calculate", .localTool⟩,
   ⟨"convert_units", .localTool⟩, ⟨"calculate_percentage", .localTool⟩,
   ⟨"weather_agent", .localAgent⟩, ⟨"calculator_agent", .localAgent⟩]

/-- The registrations of `router_agent` (src/agents/router_agent.py
lines 29-39 and 80-87): the two remote sub-agents, no tools. -/
def router_agent_registrations : List Registration :=
  [⟨"weather_agent", .remoteAgent⟩, ⟨"calculator_agent", .remoteAgent⟩]

/-- No capability name is registered both as a local and as a remote
capability. -/
def NoDualRegistration (regs : List Registration) : Prop :=
  ∀ n : String,
    ¬((∃ r ∈ regs, r.name = n ∧ r.kind.isLocal = true) ∧
      (∃ r ∈ regs, r.name = n ∧ r.kind.isRemote = true))

/-- Decidable check of `NoDualRegistration`. -/
def noDualB (regs : List Registration) : Bool :=
  regs.all (fun r =>
    !(r.kind.isLocal && regs.any (fun t => t.name == r.name && t.kind.isRemote)))

/-!
Task lifecycle.  Modelled from the spec: the Task Tracker (§4.5) lives
in the external ADK/A2A runtime, not under src/; its cancel contract is
embedded from the spec text.
-/

/-- States of the Task lifecycle (§3 of the spec). -/
inductive TaskState where
  | submitted
  | working
  | inputRequired
  | completed
  | failed
  | canceled
deriving DecidableEq

/-- Terminal states: Completed, Failed, Canceled. -/
def TaskState.isTerminal : TaskState → Bool
  | .completed => true
  | .failed => true
  | .canceled => true
  | _ => false

/-- A tracked task: its id and current state. -/
structure TrackedTask where
  id : String
  state : TaskState
deriving DecidableEq

/-- Modelled from the spec: `cancel(taskId)` of the Task Tracker (§4.5),
absent from src/ — "idempotent — canceling an already-terminal Task is a
no-op returning its current state, not an error"; a non-terminal task
transitions to Canceled. -/
def cancelTask (t : TrackedTask) : TrackedTask :=
  if t.state.isTerminal then t else { t with state := .canceled }

/-- Concrete remote behavior: every GET answers HTTP 404 with an
unparsable body. -/
def http404 : String → DiscoveryOutcome :=
  fun _ => .response 404 none

/-- Concrete random draws for witnesses. -/
def rndExample : RandomDraw :=
  ⟨20, 0, 50, 10⟩

/-- Concrete successful response carrying one artifact with one text
part "4". -/
def fourResponse : RpcResponse :=
  ⟨some ⟨some ⟨"completed"⟩, some [⟨[⟨some "4"⟩]⟩]⟩, none⟩

theorem lookup_pair_mem {l : List (Char × Char)} {c v : Char}
    (h : l.lookup c = some v) : (c, v) ∈ l := by
  rw [List.lookup_eq_some_iff] at h
  obtain ⟨l₁, l₂, rfl, -⟩ := h
  simp

theorem upperLower_snd_fresh :
    ∀ p ∈ upperLower, upperLower.lookup p.2 = none := by decide

theorem upperLower_no_space :
    ∀ p ∈ upperLower, isPySpace p.1 = false ∧ isPySpace p.2 = false := by decide

theorem lowerChar_idem (c : Char) : lowerChar (lowerChar c) = lowerChar c := by
  unfold lowerChar
  cases h : upperLower.lookup c with
  | none => simp [h]
  | some v =>
    have hv := upperLower_snd_fresh _ (lookup_pair_mem h)
    simp [h, hv]

theorem isPySpace_lowerChar (c : Char) : isPySpace (lowerChar c) = isPySpace c := by
  unfold lowerChar
  cases h : upperLower.lookup c with
  | none => simp
  | some v =>
    have hv := upperLower_no_space _ (lookup_pair_mem h)
    simp only [Option.getD_some]
    rw [hv.2, hv.1]

theorem dropWhile_self (p : α → Bool) (l : List α) :
    (l.dropWhile p).dropWhile p = l.dropWhile p := by
  cases h : l.dropWhile p with
  | nil => simp
  | cons a t =>
    have hd := List.head?_dropWhile_not p l
    rw [h] at hd
    simp only [List.head?_cons] at hd
    rw [List.dropWhile_cons, hd]
    simp

theorem stripChars_dropWhile (l : List Char) :
    (stripChars l).dropWhile isPySpace = stripChars l := by
  unfold stripChars
  cases h1 : l.dropWhile isPySpace with
  | nil => simp
  | cons a t =>
    have ha := List.head?_dropWhile_not isPySpace l
    rw [h1] at ha
    simp only [List.head?_cons] at ha
    rw [List.reverse_cons, List.dropWhile_append]
    by_cases he : (t.reverse.dropWhile isPySpace).isEmpty
    · rw [if_pos he, List.dropWhile_cons]
      simp [ha]
    · rw [if_neg he]
      cases h2 : t.reverse.dropWhile isPySpace with
      | nil => simp [h2] at he
      | cons b u =>
        have hb := List.head?_dropWhile_not isPySpace t.reverse
        rw [h2] at hb
        simp only [List.head?_cons] at hb
        rw [List.reverse_append]
        simp only [List.reverse_cons, List.reverse_nil, List.nil_append,
          List.cons_append, List.singleton_append, List.dropWhile_cons, ha]
        simp

theorem stripChars_idem (l : List Char) :
    stripChars (stripChars l) = stripChars l := by
  conv_lhs => rw [stripChars]
  rw [stripChars_dropWhile]
  unfold stripChars
  rw [List.reverse_reverse, dropWhile_self]

theorem stripChars_map_lowerChar (l : List Char) :
    stripChars (l.map lowerChar) = (stripChars l).map lowerChar := by
  have hp : (fun c => isPySpace (lowerChar c)) = isPySpace := by
    funext c
    exact isPySpace_lowerChar c
  unfold stripChars
  rw [List.dropWhile_map, ← List.map_reverse, List.dropWhile_map, ← List.map_reverse]
  simp only [Function.comp_def, hp]

theorem pyStrip_pyLower_comm (s : String) :
    pyStrip (pyLower s) = pyLower (pyStrip s) := by
  simp only [pyStrip, pyLower, stripChars_map_lowerChar]

theorem pyLower_idem (s : String) : pyLower (pyLower s) = pyLower s := by
  simp only [pyLower, List.map_map]
  congr 1
  apply List.map_congr_left
  intro c _
  exact lowerChar_idem c

theorem pyStrip_idem (s : String) : pyStrip (pyStrip s) = pyStrip s := by
  simp only [pyStrip, stripChars_idem]

theorem dispatchesTo_select (reg : List Capability) (q : String) :
    DispatchesTo reg q (selectCapability reg q) := by
  induction reg with
  | nil => exact .fallthrough q
  | cons cap rest ih =>
    cases h : capMatches cap q with
    | true =>
      rw [selectCapability, if_pos (by simp [h])]
      exact .hit cap rest q h
    | false =>
      rw [selectCapability, if_neg (by simp [h])]
      exact .skip cap rest q _ h ih

theorem dispatchesTo_fun {reg : List Capability} {q c₁ c₂ : String}
    (h₁ : DispatchesTo reg q c₁) (h₂ : DispatchesTo reg q c₂) : c₁ = c₂ := by
  induction h₁ generalizing c₂ with
  | hit cap rest qq h =>
    cases h₂ with
    | hit => rfl
    | skip _ _ _ _ hf _ => rw [h] at hf; cases hf
  | skip cap rest qq c h tl ih =>
    cases h₂ with
    | hit _ _ _ hh => rw [hh] at h; cases h
    | skip _ _ _ _ _ tl₂ => exact ih tl₂
  | fallthrough qq =>
    cases h₂ with
    | fallthrough => rfl

theorem classify_query_eq_select (q : String) :
    classify_query q = selectCapability classifyRegistry q := rfl

theorem assocLookup_eq_none_iff {α β : Type} [DecidableEq α]
    (l : List (α × β)) (k : α) :
    assocLookup l k = none ↔ k ∉ l.map Prod.fst := by
  induction l with
  | nil => simp [assocLookup]
  | cons p t ih =>
    obtain ⟨a, b⟩ := p
    by_cases h : a = k
    · subst h
      simp [assocLookup]
    · simp [assocLookup, h, ih, Ne.symm h]

theorem assocLookup_some_mem {α β : Type} [DecidableEq α]
    {l : List (α × β)} {k : α} {b : β} (h : assocLookup l k = some b) :
    k ∈ l.map Prod.fst := by
  by_contra hk
  rw [← assocLookup_eq_none_iff l k] at hk
  rw [h] at hk
  cases hk

theorem stringFoldl_append (l : List String) (a : String) :
    l.foldl (fun r s => r ++ s) a = a ++ l.foldl (fun r s => r ++ s) "" := by
  induction l generalizing a with
  | nil => simp [String.append_empty]
  | cons s t ih =>
    simp only [List.foldl_cons]
    rw [ih (a ++ s), ih ("" ++ s), String.empty_append, String.append_assoc]

theorem stringJoin_cons (s : String) (l : List String) :
    String.join (s :: l) = s ++ String.join l := by
  simp only [String.join, List.foldl_cons]
  rw [stringFoldl_append l ("" ++ s), String.empty_append]

theorem noDualB_sound {regs : List Registration} (h : noDualB regs = true) :
    NoDualRegistration regs := by
  intro n hdual
  obtain ⟨⟨r, hr, hrn, hrl⟩, ⟨t, ht, htn, htr⟩⟩ := hdual
  rw [noDualB, List.all_eq_true] at h
  have hrr := h r hr
  rw [Bool.not_eq_true', Bool.and_eq_false_iff] at hrr
  rcases hrr with hrr | hrr
  · rw [hrl] at hrr; cases hrr
  · rw [← Bool.not_eq_true, List.any_eq_true] at hrr
    exact hrr ⟨t, ht, by simp [htn, hrn, htr]⟩

theorem pyNormUnit_of_normalized (u : String) :
    pyNormUnit (pyLower (pyStrip u)) = pyNormUnit u := by
  rw [pyNormUnit, pyNormUnit, pyLower_idem, pyStrip_pyLower_comm, pyStrip_idem,
    pyStrip_pyLower_comm]

/-- C1: dispatch is deterministic — for any registry contents and query
text, the dispatch relation admits exactly one target, and
`classify_query` realizes that target on its registry; no
nondeterministic tie-breaking is possible. -/
theorem dispatch_deterministic :
    (∀ (reg : List Capability) (q c₁ c₂ : String),
        DispatchesTo reg q c₁ → DispatchesTo reg q c₂ → c₁ = c₂) ∧
    (∀ q : String, DispatchesTo classifyRegistry q (classify_query q)) := by
  constructor
  · intro reg q c₁ c₂ h₁ h₂
    exact dispatchesTo_fun h₁ h₂
  · intro q
    rw [classify_query_eq_select]
    exact dispatchesTo_select classifyRegistry q

/-- C1 witness: at the concrete query "hello" the dispatcher selects
"greeting", and determinism pins any selected target to it. -/
theorem dispatch_deterministic_witness :
    DispatchesTo classifyRegistry "hello" "greeting" ∧
      ("greeting" : String) = "greeting" := by
  have hp : DispatchesTo classifyRegistry "hello" "greeting" := by
    have h := dispatch_deterministic.2 "hello"
    have he : classify_query "hello" = "greeting" := by decide
    rw [he] at h
    exact h
  exact ⟨hp, dispatch_deterministic.1 classifyRegistry "hello" "greeting" "greeting" hp hp⟩

/-- C2 counterexample: the query "calculate the weather" contains the
calculator keyword "calculate", yet the dispatcher routes it to the
weather agent, not the calculator — the weather branch is checked
first. -/
theorem calc_keyword_routing_counterexample :
    kwAny calculation_keywords (pyLower "calculate the weather") = true ∧
    classify_query "calculate the weather" = "weather" ∧
    delegationTarget (classify_query "calculate the weather") = some "weather_agent" ∧
    delegationTarget (classify_query "calculate the weather") ≠ some "calculator_agent" := by
  decide

/-- C2 amended: a query containing a calculator keyword and no weather
keyword routes to the calculator agent; and every query matching no
declared skill keyword (no weather, calculation, or conversion keyword,
such as "hello") is answered directly with no delegation. -/
theorem calc_keyword_routing_amended :
    (∀ q : String, kwAny calculation_keywords (pyLower q) = true →
        kwAny weather_keywords (pyLower q) = false →
        delegationTarget (classify_query q) = some "calculator_agent") ∧
    (∀ q : String, kwAny weather_keywords (pyLower q) = false →
        kwAny calculation_keywords (pyLower q) = false →
        kwAny conversion_keywords (pyLower q) = false →
        delegationTarget (classify_query q) = none) := by
  constructor
  · intro q h1 h2
    simp [classify_query, delegationTarget, h1, h2]
  · intro q h1 h2 h3
    by_cases h4 : kwAny greeting_keywords (pyLower q)
    · simp [classify_query, delegationTarget, h1, h2, h3, h4]
    · simp [classify_query, delegationTarget, h1, h2, h3, h4]

/-- C2 witness: "calculate 2+2" contains "calculate" and no weather
keyword and routes to the calculator agent; "hello" matches no skill
keyword and is answered with no delegation. -/
theorem calc_keyword_routing_witness :
    kwAny calculation_keywords (pyLower "calculate 2+2") = true ∧
    kwAny weather_keywords (pyLower "calculate 2+2") = false ∧
    delegationTarget (classify_query "calculate 2+2") = some "calculator_agent" ∧
    delegationTarget (classify_query "hello") = none :=
  ⟨by decide, by decide,
   calc_keyword_routing_amended.1 "calculate 2+2" (by decide) (by decide),
   calc_keyword_routing_amended.2 "hello" (by decide) (by decide) (by decide)⟩

/-- C3: every exception raised during tool evaluation is caught inside
the tool and converted to the error dictionary of the matching
except-clause, carrying the tool-execution error message; the tool call
itself is a total function, so no exception escapes as a crash. -/
theorem tool_exception_conversion :
    (∀ (r : RawExpr) (e : PyExc), evalRaw r = .error e →
        calculate r = .err r.text (calcErrMsg e) "error") ∧
    (∀ (r : RawExpr) (e : PyExc), evalRaw r = .error e →
        advanced_calculate r = .err r.text ("Calculation error: " ++ pyExcStr e) "error") ∧
    (∀ r : RawExpr, (∃ v ty, calculate r = .ok r.text v ty) ∨
        (∃ m, calculate r = .err r.text m "error")) := by
  refine ⟨?_, ?_, ?_⟩
  · intro r e h
    unfold calculate
    rw [h]
    cases e <;> rfl
  · intro r e h
    unfold advanced_calculate
    rw [h]
  · intro r
    cases h : evalRaw r with
    | ok v =>
      left
      exact ⟨formatResult v, calcType r.text, by unfold calculate; rw [h]⟩
    | error e =>
      right
      exact ⟨calcErrMsg e, by unfold calculate; rw [h]; cases e <;> rfl⟩

/-- C3 witness: the expression "1/0" raises ZeroDivisionError, which
both tools convert into their error dictionary. -/
theorem tool_exception_conversion_witness :
    evalRaw calcFailInput = .error .zeroDivision ∧
    calculate calcFailInput = .err "1/0" "Division by zero is undefined" "error" ∧
    advanced_calculate calcFailInput = .err "1/0" "Calculation error: division by zero" "error" :=
  ⟨rfl, tool_exception_conversion.1 calcFailInput .zeroDivision rfl,
   tool_exception_conversion.2.1 calcFailInput .zeroDivision rfl⟩

/-- C5 counterexample: on timeout `send_message` surfaces the httpx
timeout exception, but the only JSON-RPC method it ever sends is
"message/send" — no tasks/cancel request is issued for the outstanding
remote task, contradicting the claim. -/
theorem timeout_cancel_counterexample :
    (send_message .timesOut).1 = .error .httpTimeout ∧
    (send_message .timesOut).2 = ["message/send"] ∧
    ("tasks/cancel" : String) ∉ (send_message .timesOut).2 := by
  refine ⟨rfl, rfl, ?_⟩
  decide

/-- C5 amended: on deadline expiry the client surfaces a timeout error
to its caller; it issues no cancel request for the outstanding remote
task (every call sends exactly the one "message/send" request), and it
gives no guarantee about the final state of the remote task. -/
theorem timeout_no_cancel_amended :
    (send_message .timesOut).1 = .error .httpTimeout ∧
    (∀ o : RemoteOutcome, (send_message o).2 = ["message/send"]) :=
  ⟨rfl, fun o => by cases o <;> rfl⟩

/-- C8: cancel is idempotent on terminal tasks — canceling an
already-terminal task returns it unchanged, and repeated cancels return
the same terminal task. -/
theorem cancel_idempotent_on_terminal (t : TrackedTask)
    (h : t.state.isTerminal = true) :
    cancelTask t = t ∧ cancelTask (cancelTask t) = cancelTask t := by
  have h1 : cancelTask t = t := by
    rw [cancelTask, if_pos (by simp [h])]
  exact ⟨h1, by rw [h1, h1]⟩

/-- C8 witness: canceling a concrete Completed task is a no-op. -/
theorem cancel_idempotent_on_terminal_witness :
    (⟨"task-1", .completed⟩ : TrackedTask).state.isTerminal = true ∧
    cancelTask ⟨"task-1", .completed⟩ = ⟨"task-1", .completed⟩ :=
  ⟨rfl, (cancel_idempotent_on_terminal ⟨"task-1", .completed⟩ rfl).1⟩

theorem stringJoin_append (l₁ l₂ : List String) :
    String.join (l₁ ++ l₂) = String.join l₁ ++ String.join l₂ := by
  induction l₁ with
  | nil =>
    simp only [List.nil_append]
    rw [show String.join ([] : List String) = "" from rfl, String.empty_append]
  | cons s t ih =>
    rw [List.cons_append, stringJoin_cons, stringJoin_cons, ih,
      String.append_assoc]

theorem partsFoldl_eq (l : List TextPart) (acc : String) :
    l.foldl
      (fun acc2 p => match p.text with
        | some t => acc2 ++ t
        | none => acc2)
      acc = acc ++ String.join (l.filterMap (fun p => p.text)) := by
  induction l generalizing acc with
  | nil => simp [String.join, String.append_empty]
  | cons p t ih =>
    cases h : p.text with
    | none =>
      simp only [List.foldl_cons, List.filterMap_cons, h]
      exact ih acc
    | some s =>
      simp only [List.foldl_cons, List.filterMap_cons, h]
      rw [ih (acc ++ s), stringJoin_cons, String.append_assoc]

theorem artsFoldl_eq (L : List A2aArtifact) (acc : String) :
    L.foldl
      (fun acc a =>
        a.parts.foldl
          (fun acc2 p => match p.text with
            | some t => acc2 ++ t
            | none => acc2)
          acc)
      acc = acc ++ String.join ((L.map artifactTexts).flatten) := by
  induction L generalizing acc with
  | nil => simp [String.join, String.append_empty]
  | cons a t ih =>
    simp only [List.foldl_cons, List.map_cons, List.flatten_cons]
    rw [partsFoldl_eq, ih, stringJoin_append, artifactTexts, String.append_assoc]

/-- C4 counterexample: a failed outcome reaches the client as a JSON-RPC
error response; the assembled response text is empty — the error message
"division by zero" is not surfaced in the assembled string, so a Failed
task contributes no user-visible notice there (the demo caller prints
the error separately). -/
theorem assemble_failed_counterexample :
    extract_response_text divZeroFailureResponse = "" ∧
    divZeroFailureResponse.error = some ⟨-32000, "division by zero"⟩ :=
  ⟨rfl, rfl⟩

/-- C4 amended: the assembled response equals the concatenation, in
order, of the text parts of every artifact of the result — nothing is
truncated or reordered, and assembly is a pure function of the response;
error outcomes contribute an empty assembled string and are surfaced
separately by the caller. -/
theorem assemble_concatenation (resp : RpcResponse) (r : TaskPayload)
    (arts : List A2aArtifact) (h1 : resp.result = some r)
    (h2 : r.artifacts = some arts) :
    extract_response_text resp = String.join ((arts.map artifactTexts).flatten) := by
  obtain ⟨ores, oerr⟩ := resp
  dsimp only at h1
  subst h1
  obtain ⟨ostat, oarts⟩ := r
  dsimp only at h2
  subst h2
  show List.foldl
      (fun acc a =>
        a.parts.foldl
          (fun acc2 p => match p.text with
            | some t => acc2 ++ t
            | none => acc2)
          acc)
      "" arts = _
  rw [artsFoldl_eq, String.empty_append]

/-- C4 witness: a response with one completed-task artifact carrying the
text part "4" assembles to exactly "4". -/
theorem assemble_concatenation_witness :
    extract_response_text fourResponse =
      String.join ((([⟨[⟨some "4"⟩]⟩] : List A2aArtifact).map artifactTexts).flatten) ∧
    String.join ((([⟨[⟨some "4"⟩]⟩] : List A2aArtifact).map artifactTexts).flatten) = "4" :=
  ⟨assemble_concatenation fourResponse _ _ rfl rfl, rfl⟩

/-- C6: discovery GETs exactly the fixed well-known path under the
endpoint base; a 2xx response with a parsable body yields the parsed
agent card, and every non-2xx status yields a discovery failure, after
which the demo retains no capability. -/
theorem discovery_contract :
    (∀ base : String, agentCardUrl base = base ++ "/.well-known/agent-card.json") ∧
    (∀ (http : String → DiscoveryOutcome) (base : String) (s : Nat) (c : AgentCard),
        http (agentCardUrl base) = .response s (some c) → 200 ≤ s → s < 300 →
        get_agent_card http base = .ok c) ∧
    (∀ (http : String → DiscoveryOutcome) (base : String) (s : Nat)
        (card : Option AgentCard), http (agentCardUrl base) = .response s card →
        ¬(200 ≤ s ∧ s < 300) →
        get_agent_card http base = .error (.httpStatus s) ∧
        run_demo_discovered http base = none) := by
  refine ⟨fun base => rfl, ?_, ?_⟩
  · intro http base s c h h2 h3
    have hb : get_agent_card http base =
        if 200 ≤ s ∧ s < 300 then Except.ok c
        else Except.error (DiscoveryFailure.httpStatus s) := by
      unfold get_agent_card
      rw [h]
    rw [hb, if_pos ⟨h2, h3⟩]
  · intro http base s card h hns
    have hb : get_agent_card http base =
        if 200 ≤ s ∧ s < 300 then
          (match card with
            | some c => Except.ok c
            | none => Except.error DiscoveryFailure.malformed)
        else Except.error (DiscoveryFailure.httpStatus s) := by
      unfold get_agent_card
      rw [h]
    have hg : get_agent_card http base = .error (.httpStatus s) := by
      rw [hb, if_neg hns]
    refine ⟨hg, ?_⟩
    unfold run_demo_discovered
    rw [hg]

/-- C6 witness: discovery against a server answering HTTP 404 fails and
the demo retains no capability. -/
theorem discovery_contract_witness :
    get_agent_card http404 "http://localhost:8000" = .error (.httpStatus 404) ∧
    run_demo_discovered http404 "http://localhost:8000" = none :=
  discovery_contract.2.2 http404 "http://localhost:8000" 404 none rfl (by decide)

/-- C7: in every reachable registry state — every prefix of the
registration sequences of `root_agent` and `router_agent` — no
capability name is registered both as local and as remote. -/
theorem registry_no_dual_kind :
    (∀ k : ℕ, NoDualRegistration (root_agent_registrations.take k)) ∧
    (∀ k : ℕ, NoDualRegistration (router_agent_registrations.take k)) := by
  constructor
  · intro k
    apply noDualB_sound
    match k with
    | 0 => decide
    | 1 => decide
    | 2 => decide
    | 3 => decide
    | 4 => decide
    | 5 => decide
    | n + 6 =>
      have h6 : root_agent_registrations.length = 6 := rfl
      rw [List.take_of_length_le (by rw [h6]; omega)]
      decide
  · intro k
    apply noDualB_sound
    match k with
    | 0 => decide
    | 1 => decide
    | n + 2 =>
      have h2 : router_agent_registrations.length = 2 := rfl
      rw [List.take_of_length_le (by rw [h2]; omega)]
      decide

/-- C7 witness: in the fully built root registry, "weather_agent" is not
registered both locally and remotely. -/
theorem registry_no_dual_kind_witness :
    ¬((∃ r ∈ root_agent_registrations.take 6, r.name = "weather_agent" ∧
          r.kind.isLocal = true) ∧
      (∃ r ∈ root_agent_registrations.take 6, r.name = "weather_agent" ∧
          r.kind.isRemote = true)) :=
  registry_no_dual_kind.1 6 "weather_agent"

/-- C9: `convert_units` succeeds exactly on the normalized unit pairs of
its conversion table; otherwise it returns the error dictionary listing
the supported conversions; and it is invariant under pre-normalizing
(stripping and lowercasing) its unit arguments — hence total and
case-insensitive. -/
theorem convert_units_contract :
    (∀ (v : ℚ) (f t : String),
        (∃ cv, convert_units v f t = .ok v (pyNormUnit f) cv (pyNormUnit t)) ↔
          (pyNormUnit f, pyNormUnit t) ∈ supportedConversions) ∧
    (∀ (v : ℚ) (f t : String),
        convert_units v f t = convert_units v (pyLower (pyStrip f)) (pyLower (pyStrip t))) ∧
    (∀ (v : ℚ) (f t : String),
        (pyNormUnit f, pyNormUnit t) ∉ supportedConversions →
        convert_units v f t = .err (unsupportedMsg (pyNormUnit f) (pyNormUnit t))
          supportedConversions) := by
  refine ⟨?_, ?_, ?_⟩
  · intro v f t
    show (∃ cv, convBody v (pyNormUnit f) (pyNormUnit t) =
        .ok v (pyNormUnit f) cv (pyNormUnit t)) ↔ _
    cases h : assocLookup conversions (pyNormUnit f, pyNormUnit t) with
    | some fn =>
      constructor
      · intro _
        exact assocLookup_some_mem h
      · intro _
        exact ⟨pyRoundTo 6 (fn v), by rw [convBody, h]⟩
    | none =>
      constructor
      · intro ⟨cv, hcv⟩
        rw [convBody, h] at hcv
        cases hcv
      · intro hmem
        rw [assocLookup_eq_none_iff] at h
        exact absurd hmem h
  · intro v f t
    show convBody v (pyNormUnit f) (pyNormUnit t) =
      convBody v (pyNormUnit (pyLower (pyStrip f))) (pyNormUnit (pyLower (pyStrip t)))
    rw [pyNormUnit_of_normalized, pyNormUnit_of_normalized]
  · intro v f t hmem
    show convBody v (pyNormUnit f) (pyNormUnit t) = _
    rw [convBody, (assocLookup_eq_none_iff conversions (pyNormUnit f, pyNormUnit t)).2 hmem]

/-- C9 witness: converting " KM " (normalized "km") to the unsupported
unit "parsecs" yields the error dictionary listing the supported
conversions. -/
theorem convert_units_contract_witness :
    convert_units 1 " KM " "parsecs" =
      .err (unsupportedMsg (pyNormUnit " KM ") (pyNormUnit "parsecs"))
        supportedConversions ∧
    (pyNormUnit " KM ", pyNormUnit "parsecs") ∉ supportedConversions :=
  ⟨convert_units_contract.2.2 1 " KM " "parsecs" (by decide), by decide⟩

theorem mockWeatherBranch_keys (loc unit : String) (rnd : RandomDraw)
    (k : String) (hk : k ∈ requiredWeatherKeys) :
    k ∈ (mockWeatherBranch loc unit rnd).map Prod.fst := by
  unfold mockWeatherBranch
  dsimp only
  simp only [requiredWeatherKeys, List.mem_cons, List.not_mem_nil, or_false] at hk
  cases assocLookup mock_weather_data (pyStrip (pyLower loc)) with
  | some w =>
    rcases hk with rfl | rfl | rfl | rfl | rfl | rfl <;> simp
  | none =>
    rcases hk with rfl | rfl | rfl | rfl | rfl | rfl <;> simp

/-- C10: `get_weather` is total at its public interface — every branch
(real API success, API failure, no key, placeholder key; known and
unknown locations) returns a dictionary containing the six required
keys; an API failure falls back to exactly the mock-data result; and a
location absent from the mock table receives generated data, never an
error. -/
theorem get_weather_total :
    (∀ (loc unit : String) (api : ApiOutcome) (rnd : RandomDraw),
        ∀ k ∈ requiredWeatherKeys, k ∈ (get_weather loc unit api rnd).map Prod.fst) ∧
    (∀ (loc unit : String) (rnd : RandomDraw),
        get_weather loc unit .failure rnd = get_weather loc unit .noKey rnd) ∧
    (∀ (loc unit : String) (rnd : RandomDraw),
        assocLookup mock_weather_data (pyStrip (pyLower loc)) = none →
        ("source", "Generated Mock Data (set OPENWEATHERMAP_API_KEY for real data)")
          ∈ get_weather loc unit .noKey rnd) := by
  refine ⟨?_, fun _ _ _ => rfl, ?_⟩
  · intro loc unit api rnd k hk
    cases api with
    | success d =>
      simp only [requiredWeatherKeys, List.mem_cons, List.not_mem_nil, or_false] at hk
      rcases hk with rfl | rfl | rfl | rfl | rfl | rfl <;> simp [get_weather]
    | noKey => exact mockWeatherBranch_keys loc unit rnd k hk
    | placeholderKey => exact mockWeatherBranch_keys loc unit rnd k hk
    | failure => exact mockWeatherBranch_keys loc unit rnd k hk
  · intro loc unit rnd h
    show ("source", _) ∈ mockWeatherBranch loc unit rnd
    unfold mockWeatherBranch
    dsimp only
    rw [h]
    simp only []
    simp

/-- C10 witness: a location absent from the mock table still yields a
dictionary with the required keys and a generated-data source marker. -/
theorem get_weather_total_witness :
    ("temperature" : String) ∈
      (get_weather "Atlantis" "celsius" .noKey rndExample).map Prod.fst ∧
    ("source", "Generated Mock Data (set OPENWEATHERMAP_API_KEY for real data)")
      ∈ get_weather "Atlantis" "celsius" .noKey rndExample :=
  ⟨get_weather_total.1 "Atlantis" "celsius" .noKey rndExample "temperature" (by decide),
   get_weather_total.2.2 "Atlantis" "celsius" rndExample (by decide)⟩
